import Mathlib

/-!
Verification development for the VGLite GPU command-buffer parser
(`scripts/vg_lite_cmdbuf_parser/`): a shallow embedding of the log
normalizer, command decoder, path interpreter, image-draw tracker and
coredump memory resolver, together with theorems about the behaviour of
the decoder on command streams.

Modelling conventions:
* Python integers extracted from 8-hex-digit tokens are `Nat` (< 2^32 by
  construction); bit operations use `&&&`, `>>>`.
* Python `float` values are never computed with: the decoder only stores
  and copies them.  An IEEE-754 value obtained by reinterpreting a 32-bit
  word is represented by its bit pattern (`Nat`); the initial matrix value
  1.0 is the pattern 0x3F800000.  Path coordinates are an inductive
  `Coord`: integer formats store the signed integer, FP32 stores the bit
  pattern.  No claim below depends on floating-point arithmetic, only on
  which values are stored, copied and compared structurally.
* Python's decimal rendering of a float inside a detail string is
  abstracted by `floatRepr` (the bit pattern in hex); no claim inspects
  the text of those particular strings, only that they are a function of
  the data word.
* Mutation of the parser object is modelled by explicit state passing
  (`ParserState`).  Python aliasing (one `ParsedCommand` object stored in
  several lists and mutated in place) is modelled by updating the last
  element of every list that holds the shared object at that moment.
* The Python `while` loop of the path interpreter makes progress of at
  least one byte per iteration; it is embedded with explicit fuel
  (`data.length + 1` at the entry point, which is always sufficient), and
  a fuel-irrelevance lemma is proved.
-/

namespace VgLite

/-! ## Character and string helpers (Python `re` / `str` behaviour) -/

/-- Python `\s` for the ASCII whitespace characters (the inputs handled
here are ASCII). -/
def isPySpace (c : Char) : Bool :=
  c = ' ' || c = '\t' || c = '\n' || c = '\x0d' || c = '\x0b' || c = '\x0c'

def dropPySpaces (cs : List Char) : List Char := cs.dropWhile isPySpace

/-- Python `str.strip()`: whitespace removed from both ends. -/
def pyStrip (cs : List Char) : List Char :=
  ((dropPySpaces cs).reverse.dropWhile isPySpace).reverse

/-- Python `str.split("\n")`. -/
def splitNl : List Char → List (List Char)
  | [] => [[]]
  | c :: t =>
    if c = '\n' then [] :: splitNl t
    else match splitNl t with
      | [] => [[c]]
      | h :: r => (c :: h) :: r

def isHexDigitCh (c : Char) : Bool :=
  ('0' ≤ c && c ≤ '9') || ('a' ≤ c && c ≤ 'f') || ('A' ≤ c && c ≤ 'F')

def hexVal (c : Char) : Nat :=
  if c ≤ '9' then c.toNat - '0'.toNat
  else if c ≤ 'F' then c.toNat - 'A'.toNat + 10
  else c.toNat - 'a'.toNat + 10

/-- Python `str.lower()` on the ASCII range (the substrings tested by the
loop are ASCII; non-ASCII characters pass through unchanged).  Defined
structurally so that it evaluates inside the kernel. -/
def pyCharLower (c : Char) : Char :=
  if 'A' ≤ c ∧ c ≤ 'Z' then Char.ofNat (c.toNat + 32) else c

def pyLower (s : String) : String := ⟨s.data.map pyCharLower⟩

/-- Python `in` on strings: contiguous substring test. -/
def containsSubAux (needle : List Char) : List Char → Bool
  | [] => needle.isEmpty
  | c :: t => needle.isPrefixOf (c :: t) || containsSubAux needle t

def containsSub (needle hay : String) : Bool := containsSubAux needle.data hay.data

/-- Uppercase hex digit, as Python format `X`. -/
def hexDigitUpper (n : Nat) : Char :=
  if n < 10 then Char.ofNat ('0'.toNat + n) else Char.ofNat ('A'.toNat + n - 10)

def hexDigitsAux : Nat → Nat → List Char
  | 0, _ => []
  | fuel + 1, n => if n = 0 then [] else hexDigitsAux fuel (n / 16) ++ [hexDigitUpper (n % 16)]

/-- Python `format(n, "0wX")`: uppercase hex, left-padded with zeros to
width `w` (wider if the value needs more digits). -/
def toHexUpper (w n : Nat) : String :=
  let ds := hexDigitsAux 16 n
  ⟨List.replicate (w - ds.length) '0' ++ ds⟩

/-- Stand-in for Python `repr(float)` of the value with these bits (see
module comment): the bit pattern in hex. -/
def floatRepr (bits : Nat) : String := "float_bits:0x" ++ toHexUpper 8 bits

/-! ### The hex-pair pattern `(0x[0-9A-Fa-f]{8})\s+(0x[0-9A-Fa-f]{8})` -/

/-- Exactly `k` further hex digits accumulated onto `acc`. -/
def matchExactHex : Nat → Nat → List Char → Option (Nat × List Char)
  | 0, acc, rest => some (acc, rest)
  | _ + 1, _, [] => none
  | k + 1, acc, c :: rest =>
    if isHexDigitCh c then matchExactHex k (acc * 16 + hexVal c) rest else none

/-- Source `0x` followed by exactly eight hex digits, at the head of the list. -/
def matchHexWord8 : List Char → Option (Nat × List Char)
  | '0' :: 'x' :: rest => matchExactHex 8 0 rest
  | _ => none

/-- The full pair pattern anchored at the head of the list. -/
def pairAt (cs : List Char) : Option (Nat × Nat) :=
  match matchHexWord8 cs with
  | none => none
  | some (v1, rest) =>
    match rest with
    | [] => none
    | c :: rest2 =>
      if isPySpace c then
        match matchHexWord8 (dropPySpaces rest2) with
        | some (v2, _) => some (v1, v2)
        | none => none
      else none

/-- Python `re.search` of the pair pattern: leftmost match. -/
def searchPair : List Char → Option (Nat × Nat)
  | [] => none
  | c :: t =>
    match pairAt (c :: t) with
    | some p => some p
    | none => searchPair t

/-! ### `clean_log_line` -/

/-- After the ANSI introducer: `[` then `[0-9;]*` then `m`; returns the rest. -/
def matchAnsiBody : List Char → Option (List Char)
  | '[' :: t =>
    match t.dropWhile (fun c => c.isDigit || c = ';') with
    | 'm' :: r => some r
    | _ => none
  | _ => none

/-- Source `re.sub` of the ANSI pattern `(\x1b|\033|\^\[)\[[0-9;]*m`.  Fuel is the
initial length: every step consumes at least one character. -/
def stripAnsiF : Nat → List Char → List Char
  | 0, cs => cs
  | _ + 1, [] => []
  | fuel + 1, c :: t =>
    if c = '\x1b' then
      match matchAnsiBody t with
      | some rest => stripAnsiF fuel rest
      | none => c :: stripAnsiF fuel t
    else if c = '^' then
      match t with
      | '[' :: t2 =>
        match matchAnsiBody t2 with
        | some rest => stripAnsiF fuel rest
        | none => c :: stripAnsiF fuel t
      | _ => c :: stripAnsiF fuel t
    else c :: stripAnsiF fuel t

def stripAnsi (cs : List Char) : List Char := stripAnsiF cs.length cs

/-- First case-insensitive occurrence of `[ap]`; returns the rest after it. -/
def findApRest : List Char → Option (List Char)
  | [] => none
  | c :: t =>
    if c = '[' then
      match t with
      | a :: p :: ']' :: rest =>
        if pyCharLower a = 'a' && pyCharLower p = 'p' then some rest else findApRest t
      | _ => findApRest t
    else findApRest t

/-- Source `re.sub(r"^.*?\[ap\]\s*", "", line, IGNORECASE)`: everything up to and
including the first `[ap]` tag plus trailing whitespace. -/
def stripApTag (cs : List Char) : List Char :=
  match findApRest cs with
  | some rest => dropPySpaces rest
  | none => cs

/-- Anchored `\d{4}-\d{2}-\d{2}\s+\d{2}:\d{2}:\d{2}[.\d]*\s*`. -/
def matchTimestamp : List Char → Option (List Char)
  | y1 :: y2 :: y3 :: y4 :: '-' :: o1 :: o2 :: '-' :: d1 :: d2 :: rest =>
    if [y1, y2, y3, y4, o1, o2, d1, d2].all Char.isDigit then
      match rest with
      | c :: _ =>
        if isPySpace c then
          match dropPySpaces rest with
          | h1 :: h2 :: ':' :: m1 :: m2 :: ':' :: s1 :: s2 :: r3 =>
            if [h1, h2, m1, m2, s1, s2].all Char.isDigit then
              some (dropPySpaces (r3.dropWhile (fun c => c.isDigit || c = '.')))
            else none
          | _ => none
        else none
      | [] => none
    else none
  | _ => none

def stripTimestamp (cs : List Char) : List Char := (matchTimestamp cs).getD cs

/-- Rest after the first `]`, if any. -/
def splitAtRBracket : List Char → Option (List Char)
  | [] => none
  | ']' :: rest => some rest
  | _ :: t => splitAtRBracket t

/-- Source `re.sub(r"\[[^\]]*\]\s*", "", line)`.  Fuel as in `stripAnsiF`. -/
def removeBracketsF : Nat → List Char → List Char
  | 0, cs => cs
  | _ + 1, [] => []
  | fuel + 1, c :: t =>
    if c = '[' then
      match splitAtRBracket t with
      | some rest => removeBracketsF fuel (dropPySpaces rest)
      | none => c :: removeBracketsF fuel t
    else c :: removeBracketsF fuel t

def removeBrackets (cs : List Char) : List Char := removeBracketsF cs.length cs

/-- Source `re.match(r"^\s*0x", line)`: optional whitespace then literal `0x`. -/
def startsWithHex (cs : List Char) : Bool :=
  match dropPySpaces cs with
  | '0' :: 'x' :: _ => true
  | _ => false

/-- Source `VGLiteCommandParser.clean_log_line`: ANSI codes, an `[ap]` logging
prefix, a timestamp prefix, bracketed tags (unless the line starts with a
hex token), then `strip()`. -/
def clean_log_line (line : String) : String :=
  let cs := stripAnsi line.data
  let cs := stripApTag cs
  let cs := stripTimestamp cs
  let cs := if startsWithHex cs then cs else removeBrackets cs
  ⟨pyStrip cs⟩

/-- Regex `key\s+(0x[0-9A-Fa-f]+)` with IGNORECASE, returning the captured
token (used for the `addr 0x.. size 0x..` metadata lines). -/
def matchHexPlus : List Char → Option String
  | '0' :: c :: rest =>
    if c = 'x' || c = 'X' then
      match rest.takeWhile isHexDigitCh with
      | [] => none
      | digits => some ⟨'0' :: c :: digits⟩
    else none
  | _ => none

def findHexAfterKeyAux (key : List Char) : List Char → Option String
  | [] => none
  | c :: t =>
    if (((c :: t).take key.length).map pyCharLower) = key then
      match (c :: t).drop key.length with
      | r :: rest2 =>
        if isPySpace r then
          match matchHexPlus (dropPySpaces (r :: rest2)) with
          | some tok => some tok
          | none => findHexAfterKeyAux key t
        else findHexAfterKeyAux key t
      | [] => findHexAfterKeyAux key t
    else findHexAfterKeyAux key t

def findHexAfterKey (key line : String) : Option String :=
  findHexAfterKeyAux key.data line.data

/-! ## Byte-level helpers (`struct.unpack` little-endian) -/

def byteAt (data : List Nat) (i : Nat) : Nat := data.getD i 0

def u16LE (data : List Nat) (i : Nat) : Nat :=
  byteAt data i + 256 * byteAt data (i + 1)

def u32LE (data : List Nat) (i : Nat) : Nat :=
  byteAt data i + 256 * byteAt data (i + 1) + 65536 * byteAt data (i + 2) +
    16777216 * byteAt data (i + 3)

/-- Two's-complement reinterpretation of a `w`-bit unsigned value. -/
def toSigned (w n : Nat) : Int :=
  if n < 2 ^ (w - 1) then (n : Int) else (n : Int) - 2 ^ w

/-- Source `struct.pack("<I", n)` as a list of byte values. -/
def le4 (n : Nat) : List Nat :=
  [n % 256, n / 256 % 256, n / 65536 % 256, n / 16777216 % 256]

/-! ## `constants.py` -/

def CommandType.END : Nat := 0x00000000
def CommandType.SEMAPHORE : Nat := 0x10000000
def CommandType.STALL : Nat := 0x20000000
def CommandType.STATE : Nat := 0x30000000
def CommandType.DATA : Nat := 0x40000000
def CommandType.CALL : Nat := 0x60000000
def CommandType.RETURN : Nat := 0x70000000
def CommandType.NOP : Nat := 0x80000000

/-- Source `VLC_OP_CODES`: path opcode byte → (name, coordinate count). -/
def VLC_OP_CODES : Nat → Option (String × Nat)
  | 0x00 => some ("END", 0)
  | 0x01 => some ("CLOSE", 0)
  | 0x02 => some ("MOVE", 2)
  | 0x03 => some ("MOVE_REL", 2)
  | 0x04 => some ("LINE", 2)
  | 0x05 => some ("LINE_REL", 2)
  | 0x06 => some ("QUAD", 4)
  | 0x07 => some ("QUAD_REL", 4)
  | 0x08 => some ("CUBIC", 6)
  | 0x09 => some ("CUBIC_REL", 6)
  | 0x0A => some ("BREAK", 0)
  | 0x0B => some ("HLINE", 1)
  | 0x0C => some ("HLINE_REL", 1)
  | 0x0D => some ("VLINE", 1)
  | 0x0E => some ("VLINE_REL", 1)
  | 0x0F => some ("SQUAD", 2)
  | 0x10 => some ("SQUAD_REL", 2)
  | 0x11 => some ("SCUBIC", 4)
  | 0x12 => some ("SCUBIC_REL", 4)
  | 0x13 => some ("SCCWARC", 5)
  | 0x14 => some ("SCCWARC_REL", 5)
  | 0x15 => some ("SCWARC", 5)
  | 0x16 => some ("SCWARC_REL", 5)
  | 0x17 => some ("LCCWARC", 5)
  | 0x18 => some ("LCCWARC_REL", 5)
  | 0x19 => some ("LCWARC", 5)
  | 0x1A => some ("LCWARC_REL", 5)
  | _ => none

/-- Source `REGISTER_MAP`.  The Python dict literal assigns some keys twice
(0x0A18, 0x0A19, 0x0A1A, 0x0A1C, 0x0A1D, 0x0A1E); a Python dict keeps the
last assignment, so those keys map to the Blit step names here. -/
def REGISTER_MAP : Nat → Option String
  | 0x0A00 => some "VgControl"
  | 0x0A01 => some "VgTargetAddress"
  | 0x0A02 => some "VgColor"
  | 0x0A03 => some "VgClearColor"
  | 0x0A04 => some "VgImageAddress"
  | 0x0A05 => some "VgImageConfig"
  | 0x0A06 => some "VgImageStride"
  | 0x0A07 => some "VgImageUAddress"
  | 0x0A08 => some "VgImageVAddress"
  | 0x0A09 => some "VgImageUVStride"
  | 0x0A0A => some "VgImageSize"
  | 0x0A0B => some "VgPaintColor"
  | 0x0A0C => some "VgPatternAddress"
  | 0x0A0D => some "VgPatternConfig"
  | 0x0A0E => some "VgPatternStride"
  | 0x0A0F => some "VgPatternSize"
  | 0x0A10 => some "VgTargetStride"
  | 0x0A11 => some "VgTargetWidth"
  | 0x0A12 => some "VgTargetHeight"
  | 0x0A13 => some "VgTargetConfig"
  | 0x0A14 => some "VgColorKey"
  | 0x0A15 => some "VgScissorLeft"
  | 0x0A16 => some "VgScissorTop"
  | 0x0A17 => some "VgScissorRight"
  | 0x0A18 => some "VgBlitCStepX"
  | 0x0A19 => some "VgBlitCStepY"
  | 0x0A1A => some "VgBlitCStepZ"
  | 0x0A1B => some "VgTessControl"
  | 0x0A1C => some "VgBlitXStepX"
  | 0x0A1D => some "VgBlitXStepY"
  | 0x0A1E => some "VgBlitXStepZ"
  | 0x0A1F => some "VgDstAlphaFactor"
  | 0x0A20 => some "VgBlitYStepX"
  | 0x0A21 => some "VgBlitYStepY"
  | 0x0A22 => some "VgBlitYStepZ"
  | 0x0A25 => some "VgSourceConfig"
  | 0x0A27 => some "VgSourceClip"
  | 0x0A29 => some "VgSourceAddress"
  | 0x0A2B => some "VgSourceStride"
  | 0x0A2D => some "VgSourceOrigin"
  | 0x0A2F => some "VgSourceSize"
  | 0x0A30 => some "VgImageMatrix0"
  | 0x0A31 => some "VgImageMatrix1"
  | 0x0A32 => some "VgImageMatrix2"
  | 0x0A33 => some "VgImageMatrix3"
  | 0x0A34 => some "VgPathControl"
  | 0x0A35 => some "VgImageMatrix4"
  | 0x0A36 => some "VgImageMatrix5"
  | 0x0A37 => some "VgImageMatrix6"
  | 0x0A38 => some "VgImageMatrix7"
  | 0x0A39 => some "VgTessWindow"
  | 0x0A3A => some "VgTessWindowSize"
  | 0x0A3B => some "VgPathScale"
  | 0x0A3C => some "VgPathBias"
  | 0x0A3D => some "VgTessSize"
  | 0x0A40 => some "VgPathMatrix0"
  | 0x0A41 => some "VgPathMatrix1"
  | 0x0A42 => some "VgPathMatrix2"
  | 0x0A43 => some "VgPathMatrix3"
  | 0x0A44 => some "VgPathMatrix4"
  | 0x0A45 => some "VgPathMatrix5"
  | 0x0A46 => some "VgClutAddress"
  | 0x0A47 => some "VgClutConfig"
  | 0x0A50 => some "VgColorTransformLow"
  | 0x0A51 => some "VgColorTransformHigh"
  | 0x0A52 => some "VgColorTransformScale"
  | 0x0A53 => some "VgColorTransformBias"
  | 0x0A5C => some "VgImageAlphaAddress"
  | 0x0A5D => some "VgImageAlphaStride"
  | 0x0A90 => some "VgClutData0"
  | 0x0A91 => some "VgClutData1"
  | 0x0A92 => some "VgClutData2"
  | 0x0A93 => some "VgClutData3"
  | 0x0A94 => some "VgClutData4"
  | 0x0A95 => some "VgClutData5"
  | 0x0A96 => some "VgClutData6"
  | 0x0A97 => some "VgClutData7"
  | 0x0AC8 => some "VgConfig"
  | 0x0ACB => some "VgMaskStride"
  | 0x0ACC => some "VgMaskConfig"
  | 0x0ACD => some "VgPathTransX"
  | 0x0ACE => some "VgPathTransY"
  | _ => none

def BLEND_MODES : Nat → Option String
  | 0x00000000 => some "NONE"
  | 0x00000100 => some "SRC_OVER"
  | 0x00000200 => some "DST_OVER"
  | 0x00000300 => some "SRC_IN"
  | 0x00000400 => some "DST_IN"
  | 0x00000500 => some "MULTIPLY"
  | 0x00000600 => some "SCREEN"
  | 0x00000700 => some "DARKEN"
  | 0x00000800 => some "LIGHTEN"
  | 0x00000900 => some "ADDITIVE"
  | 0x00000A00 => some "SUBTRACT"
  | 0x00000C00 => some "SUBTRACT_LVGL"
  | _ => none

def IMAGE_FORMATS : Nat → Option String
  | 0x00 => some "L8"
  | 0x01 => some "A4"
  | 0x02 => some "A8"
  | 0x03 => some "BGRA4444"
  | 0x04 => some "BGRA5551"
  | 0x05 => some "BGR565"
  | 0x06 => some "BGRX8888"
  | 0x07 => some "BGRA8888"
  | 0x08 => some "YUYV/YUY2"
  | 0x09 => some "YV12"
  | 0x0A => some "NV16"
  | 0x0B => some "NV12"
  | 0x0C => some "YV16"
  | 0x0D => some "YV24"
  | 0x0E => some "ANV12"
  | 0x0F => some "AYUY2"
  | 0x13 => some "ABGR4444"
  | 0x14 => some "ABGR1555"
  | 0x15 => some "BGRA5551"
  | 0x16 => some "XBGR8888"
  | 0x17 => some "ABGR8888"
  | 0x21 => some "BGR565"
  | 0x23 => some "RGBA4444"
  | 0x24 => some "RGBA5551"
  | 0x25 => some "RGB565"
  | 0x26 => some "RGBX8888"
  | 0x27 => some "RGBA8888"
  | 0x33 => some "ARGB4444"
  | 0x34 => some "ARGB1555"
  | 0x35 => some "ARGB5551"
  | 0x36 => some "XRGB8888"
  | 0x37 => some "ARGB8888"
  | _ => none

def ADDRESS_REGISTERS : List Nat :=
  [0x0A04, 0x0A07, 0x0A08, 0x0A0C, 0x0A11, 0x0A29, 0x0A46, 0x0ACB]

def VALID_REG_RANGES : List (Nat × Nat) := [(0x0A00, 0x0AFF)]

def SUSPICIOUS_ADDRESSES : List Nat := [0x00000000, 0xDEADBEEF, 0xCAFEBABE, 0xFFFFFFFF]

/-! ## `models.py` -/

/-- A decoded path coordinate (see module comment): integer formats carry
the signed value, FP32 carries the 32-bit pattern. -/
inductive Coord where
  | ofInt (z : Int)
  | ofBits (w : Nat)
deriving DecidableEq, Repr

structure PathSegment where
  opcode : Nat
  opName : String
  coords : List Coord
deriving DecidableEq, Repr

/-- Source `ImageDrawInfo` dataclass; matrix entries are IEEE-754 bit patterns
(1.0 = 0x3F800000). -/
structure ImageDrawInfo where
  srcAddress : Nat := 0
  srcFormat : String := "UNKNOWN"
  srcFormatRaw : Nat := 0
  srcWidth : Nat := 0
  srcHeight : Nat := 0
  srcStride : Nat := 0
  dstAddress : Nat := 0
  dstFormat : String := "UNKNOWN"
  dstFormatRaw : Nat := 0
  dstWidth : Nat := 0
  dstHeight : Nat := 0
  dstStride : Nat := 0
  matrix : List Nat := [0x3F800000, 0, 0, 0, 0x3F800000, 0, 0, 0, 0x3F800000]
  blendMode : String := "SRC_OVER"
  clipX : Nat := 0
  clipY : Nat := 0
  clipWidth : Nat := 0
  clipHeight : Nat := 0
  offset : Nat := 0
  sectionName : String := ""
deriving DecidableEq, Repr

structure ParsedCommand where
  offset : Nat
  cmdWord : Nat
  dataWord : Nat
  cmdType : String
  description : String
  details : List String
  isAbnormal : Bool := false
  abnormalReasons : List String := []
  pathData : List (Nat × Nat) := []
  pathSegments : List PathSegment := []
deriving DecidableEq, Repr

/-- A `parse_log` section dict (`name/address/size/commands/abnormal_commands`). -/
structure CommandSection where
  name : String
  address : Option String := none
  size : Option String := none
  commands : List ParsedCommand := []
  abnormalCommands : List ParsedCommand := []
deriving DecidableEq, Repr

/-! ## `path_parser.py` (`VGLitePathParser`) -/

/-- Source `_get_format_size` (the source returns 4 for `S32`, `FP32` and any
other string). -/
def formatSize (fmt : String) : Nat :=
  if fmt = "S8" then 1 else if fmt = "S16" then 2 else 4

/-- Source `_read_opcode`. -/
def read_opcode (fmt : String) (data : List Nat) (offset : Nat) : Option Nat :=
  if data.length ≤ offset then none
  else if fmt = "S8" then some (byteAt data offset)
  else if fmt = "S16" then
    (if data.length < offset + 2 then none else some (u16LE data offset))
  else
    (if data.length < offset + 4 then none else some (u32LE data offset))

/-- Source `_read_coord`. -/
def read_coord (fmt : String) (data : List Nat) (offset : Nat) : Option Coord :=
  if data.length ≤ offset then none
  else if fmt = "S8" then some (Coord.ofInt (toSigned 8 (byteAt data offset)))
  else if fmt = "S16" then
    (if data.length < offset + 2 then none else some (Coord.ofInt (toSigned 16 (u16LE data offset))))
  else if fmt = "S32" then
    (if data.length < offset + 4 then none else some (Coord.ofInt (toSigned 32 (u32LE data offset))))
  else
    (if data.length < offset + 4 then none else some (Coord.ofBits (u32LE data offset)))

/-- The coordinate-reading loop inside `_parse_bytes`: up to `n` fields; a
field is skipped (offset still advanced) when `_read_coord` returns `None`,
and the loop stops early when the data is exhausted.  Returns the collected
coordinates and the final offset. -/
def readCoordsLoop (fmt : String) (data : List Nat) : Nat → Nat → List Coord × Nat
  | offset, 0 => ([], offset)
  | offset, n + 1 =>
    if data.length ≤ offset then ([], offset)
    else
      let c := read_coord fmt data offset
      let r := readCoordsLoop fmt data (offset + formatSize fmt) n
      (match c with
       | some v => v :: r.1
       | none => r.1, r.2)

/-- The `while` loop of `_parse_bytes`, with explicit fuel (every
iteration advances the offset by at least one byte, so `data.length + 1`
fuel at offset 0 always suffices; see `parseBytesGoF_fuel`). -/
def parseBytesGoF (fmt : String) (data : List Nat) : Nat → Nat → List PathSegment
  | _, 0 => []
  | offset, fuel + 1 =>
    if offset < data.length then
      match read_opcode fmt data offset with
      | none => []
      | some opcode =>
        match VLC_OP_CODES (opcode % 256) with
        | none => parseBytesGoF fmt data (offset + formatSize fmt) fuel
        | some info =>
          let r := readCoordsLoop fmt data (offset + formatSize fmt) info.2
          let seg : PathSegment := ⟨opcode, info.1, r.1⟩
          if opcode = 0 then [seg] else seg :: parseBytesGoF fmt data r.2 fuel
    else []

/-- Source `_parse_bytes`. -/
def parse_bytes (fmt : String) (data : List Nat) : List PathSegment :=
  parseBytesGoF fmt data 0 (data.length + 1)

/-- Source `parse_path_data`: flatten the `(dword1, dword2)` pairs into a
little-endian byte stream and run `_parse_bytes`. -/
def bytesOfPairs (raw : List (Nat × Nat)) : List Nat :=
  raw.foldr (fun p acc => le4 p.1 ++ le4 p.2 ++ acc) []

def parse_path_data (fmt : String) (raw : List (Nat × Nat)) : List PathSegment :=
  if raw = [] then [] else parse_bytes fmt (bytesOfPairs raw)

/-! ## `command_parser.py` (`VGLiteCommandParser`) -/

def identityMatrixBits : List Nat :=
  [0x3F800000, 0, 0, 0, 0x3F800000, 0, 0, 0, 0x3F800000]

/-- The mutable fields of a `VGLiteCommandParser` instance. -/
structure ParserState where
  verbose : Bool
  parsePath : Bool
  parseImage : Bool
  commands : List ParsedCommand
  abnormalCommands : List ParsedCommand
  currentPathFormat : String
  commandSections : List CommandSection
  currentSection : Option CommandSection
  imageDraws : List ImageDrawInfo
  currentImage : ImageDrawInfo
  imageMatrix : List Nat
  currentBlend : String
deriving DecidableEq, Repr

/-- Source `VGLiteCommandParser.__init__`. -/
def initParser (verbose parse_path parse_image : Bool) : ParserState :=
  { verbose := verbose
    parsePath := parse_path
    parseImage := parse_image
    commands := []
    abnormalCommands := []
    currentPathFormat := "FP32"
    commandSections := []
    currentSection := none
    imageDraws := []
    currentImage := {}
    imageMatrix := identityMatrixBits
    currentBlend := "SRC_OVER" }

/-- Source `_finalize_image_draw`: snapshot the current image accumulator (the
matrix by value) into a record, then clear only the source address. -/
def finalize_image_draw (s : ParserState) (offset : Nat) : ParserState :=
  if s.currentImage.srcAddress = 0 then s
  else
    let img : ImageDrawInfo :=
      { srcAddress := s.currentImage.srcAddress
        srcFormat := s.currentImage.srcFormat
        srcFormatRaw := s.currentImage.srcFormatRaw
        srcWidth := s.currentImage.srcWidth
        srcHeight := s.currentImage.srcHeight
        srcStride := s.currentImage.srcStride
        dstAddress := s.currentImage.dstAddress
        dstFormat := s.currentImage.dstFormat
        dstFormatRaw := s.currentImage.dstFormatRaw
        dstWidth := s.currentImage.dstWidth
        dstHeight := s.currentImage.dstHeight
        dstStride := s.currentImage.dstStride
        matrix := s.imageMatrix
        blendMode := s.currentBlend
        offset := offset
        sectionName := match s.currentSection with
          | some sec => sec.name
          | none => "" }
    { s with imageDraws := s.imageDraws ++ [img],
             currentImage := { s.currentImage with srcAddress := 0 } }

/-- Source `_reset_image_state`.  Its docstring says it is to be called when a
new command segment starts, but the source never invokes it. -/
def reset_image_state (s : ParserState) : ParserState :=
  { s with currentImage := {}, imageMatrix := identityMatrixBits, currentBlend := "SRC_OVER" }

/-- Source `_decode_state_data`: register-specific detail strings plus the state
updates performed as side effects in the source.  The `try` around the
`struct.unpack("f", ...)` reinterpretations cannot fail on 4 bytes, so
only the `try` branch is modelled (via `floatRepr`). -/
def decode_state_data (s : ParserState) (address data : Nat) : ParserState × List String :=
  if address = 0x0A00 then
    let blend := data &&& 0x00000F00
    let blendName := (BLEND_MODES blend).getD ("0x" ++ toHexUpper 4 blend)
    let details := ["混合模式: " ++ blendName]
      ++ (if data &&& 0x01 ≠ 0 then ["启用Tiled模式"] else [])
      ++ (if data &&& 0x40 ≠ 0 then ["启用裁剪"] else [])
      ++ (if data &&& 0x80 ≠ 0 then ["启用遮罩"] else [])
      ++ (if data &&& 0x100000 ≠ 0 then ["启用颜色变换"] else [])
      ++ (if data &&& 0x200000 ≠ 0 then ["启用矩阵"] else [])
    (if s.parseImage then { s with currentBlend := blendName } else s, details)
  else if address = 0x0A02 then
    let a := (data >>> 24) &&& 0xFF
    let r := (data >>> 16) &&& 0xFF
    let g := (data >>> 8) &&& 0xFF
    let b := data &&& 0xFF
    (s, ["颜色: ARGB(" ++ toString a ++ ", " ++ toString r ++ ", " ++ toString g ++ ", "
          ++ toString b ++ ") / #" ++ toHexUpper 8 data])
  else if address = 0x0A34 then
    let fmt := (data >>> 20) &&& 0x3
    let fmtName := if fmt = 0 then "S8" else if fmt = 1 then "S16"
      else if fmt = 2 then "S32" else if fmt = 3 then "FP32" else "?"
    let quality := (data >>> 24) &&& 0x3
    let qualityName := if quality = 0 then "LOW" else if quality = 1 then "MEDIUM"
      else if quality = 2 then "HIGH" else if quality = 3 then "BETTER" else "?"
    let details := ["路径格式: " ++ fmtName, "质量: " ++ qualityName]
      ++ (if data &&& 0x10 ≠ 0 then ["奇偶填充规则"] else ["非零填充规则"])
      ++ (if data &&& 0x200 ≠ 0 then ["描边模式"] else [])
    ({ s with currentPathFormat := fmtName }, details)
  else if address = 0x0A39 then
    let x := data &&& 0xFFFF
    let y := (data >>> 16) &&& 0xFFFF
    (s, ["窗口起点: (" ++ toString x ++ ", " ++ toString y ++ ")"])
  else if address = 0x0A3A then
    let w := data &&& 0xFFFF
    let h := (data >>> 16) &&& 0xFFFF
    (s, ["窗口大小: " ++ toString w ++ " x " ++ toString h])
  else if address = 0x0A3B then
    (s, ["缩放: " ++ floatRepr data])
  else if address = 0x0A3C then
    (s, ["偏移: " ++ floatRepr data])
  else if address = 0x0A01 then
    (if s.parseImage then { s with currentImage := { s.currentImage with dstAddress := data } } else s,
     ["目标地址: 0x" ++ toHexUpper 8 data])
  else if address = 0x0A29 then
    (if s.parseImage then { s with currentImage := { s.currentImage with srcAddress := data } } else s,
     ["源图像地址: 0x" ++ toHexUpper 8 data])
  else if address = 0x0A10 then
    (if s.parseImage then { s with currentImage := { s.currentImage with dstStride := data } } else s,
     ["目标步长: " ++ toString data ++ " 字节"])
  else if address = 0x0A11 then
    (if s.parseImage then { s with currentImage := { s.currentImage with dstWidth := data } } else s,
     ["目标宽度: " ++ toString data])
  else if address = 0x0A12 then
    (if s.parseImage then { s with currentImage := { s.currentImage with dstHeight := data } } else s,
     ["目标高度: " ++ toString data])
  else if address = 0x0A13 then
    let fmt := data &&& 0x3F
    let fmtName := (IMAGE_FORMATS fmt).getD ("0x" ++ toHexUpper 2 fmt)
    (if s.parseImage then
       { s with currentImage := { s.currentImage with dstFormat := fmtName, dstFormatRaw := fmt } }
     else s,
     ["目标格式: " ++ fmtName])
  else if address = 0x0A25 then
    let fmt := data &&& 0x3F
    let filterMode := (data >>> 16) &&& 0x3
    let fmtName := (IMAGE_FORMATS fmt).getD ("0x" ++ toHexUpper 2 fmt)
    let filterName := if filterMode = 0 then "POINT" else if filterMode = 1 then "LINEAR"
      else if filterMode = 2 then "BI_LINEAR" else if filterMode = 3 then "GAUSSIAN" else "?"
    (if s.parseImage then
       { s with currentImage := { s.currentImage with srcFormat := fmtName, srcFormatRaw := fmt } }
     else s,
     ["源格式: " ++ fmtName ++ ", 滤波: " ++ filterName])
  else if address = 0x0A2B then
    let stride := data &&& 0x0FFFFFFF
    let tiled := (data >>> 28) &&& 0x1
    (if s.parseImage then { s with currentImage := { s.currentImage with srcStride := stride } } else s,
     ["源步长: " ++ toString stride ++ " 字节" ++ (if tiled ≠ 0 then ", Tiled" else "")])
  else if address = 0x0A2D then
    let x := data &&& 0xFFFF
    let y := (data >>> 16) &&& 0xFFFF
    (s, ["源区域起点: (" ++ toString x ++ ", " ++ toString y ++ ")"])
  else if address = 0x0A2F then
    let w := data &&& 0xFFFF
    let h := (data >>> 16) &&& 0xFFFF
    (if s.parseImage then
       { s with currentImage := { s.currentImage with srcWidth := w, srcHeight := h } }
     else s,
     ["源尺寸: " ++ toString w ++ " x " ++ toString h])
  else if address = 0x0A1B then
    (s, ["细分控制: 0x" ++ toHexUpper 8 data])
  else if address = 0x0A3D then
    (s, ["细分缓冲区: " ++ toString (data * 64) ++ " 字节"])
  else if 0x0A40 ≤ address ∧ address < 0x0A46 then
    let idx := address - 0x0A40
    (s, ["路径矩阵[" ++ toString (idx / 3) ++ "][" ++ toString (idx % 3) ++ "]: " ++ floatRepr data])
  else if 0x0A30 ≤ address ∧ address < 0x0A39 then
    let idx := address - 0x0A30
    (if s.parseImage then { s with imageMatrix := s.imageMatrix.set idx data } else s,
     ["图像矩阵[" ++ toString idx ++ "]: " ++ floatRepr data])
  else
    (s, ["数据: 0x" ++ toHexUpper 8 data])

/-- Source `_decode_command`: decode one word pair into a `ParsedCommand`
(second component), with the state side effects of the source (path
format / image state / image-draw finalization) in the first component. -/
def decode_command (s : ParserState) (offset cmdWord dataWord : Nat) :
    ParserState × ParsedCommand :=
  let opcode := cmdWord &&& 0xF0000000
  if opcode = CommandType.STATE then
    let count := (cmdWord >>> 16) &&& 0xFF
    let address := cmdWord &&& 0xFFFF
    if count = 1 then
      let regName := (REGISTER_MAP address).getD ("REG_0x" ++ toHexUpper 4 address)
      let p := decode_state_data s address dataWord
      let reasons :=
        (if (REGISTER_MAP address) = none ∧
            ¬ (VALID_REG_RANGES.any fun pr => decide (pr.1 ≤ address ∧ address ≤ pr.2)) = true then
           ["未知寄存器地址: 0x" ++ toHexUpper 4 address]
         else [])
        ++ (if address ∈ ADDRESS_REGISTERS then
              (if dataWord ∈ SUSPICIOUS_ADDRESSES then
                 ["可疑地址值: 0x" ++ toHexUpper 8 dataWord ++ " (可能为空指针)"]
               else [])
              ++ (if dataWord ≠ 0 ∧ (dataWord < 0x10000000 ∨ dataWord > 0x80000000) then
                    ["地址值可能超出有效范围: 0x" ++ toHexUpper 8 dataWord]
                  else [])
            else [])
      (p.1,
       { offset := offset, cmdWord := cmdWord, dataWord := dataWord, cmdType := "STATE",
         description := "写寄存器 " ++ regName, details := p.2,
         isAbnormal := ¬ reasons.isEmpty, abnormalReasons := reasons })
    else
      let regName := (REGISTER_MAP address).getD ("REG_0x" ++ toHexUpper 4 address)
      let reasons := if count > 64 then ["批量写入数量过大: " ++ toString count] else []
      (s,
       { offset := offset, cmdWord := cmdWord, dataWord := dataWord, cmdType := "STATES",
         description := "批量写 " ++ toString count ++ " 个寄存器, 起始: " ++ regName,
         details := [], isAbnormal := ¬ reasons.isEmpty, abnormalReasons := reasons })
  else if opcode = CommandType.END then
    let interrupt := cmdWord &&& 0x00FFFFFF
    (s,
     { offset := offset, cmdWord := cmdWord, dataWord := dataWord, cmdType := "END",
       description := "结束命令",
       details := if interrupt ≠ 0 then ["触发中断: " ++ toString interrupt] else [],
       isAbnormal := false, abnormalReasons := [] })
  else if opcode = CommandType.SEMAPHORE then
    let semId := cmdWord &&& 0x0FFFFFFF
    let reasons := if semId > 31 then ["信号量ID超出范围: " ++ toString semId] else []
    (s,
     { offset := offset, cmdWord := cmdWord, dataWord := dataWord, cmdType := "SEMAPHORE",
       description := "信号量 ID=" ++ toString semId, details := [],
       isAbnormal := ¬ reasons.isEmpty, abnormalReasons := reasons })
  else if opcode = CommandType.STALL then
    let stallId := cmdWord &&& 0x0FFFFFFF
    let reasons := if stallId > 31 then ["停顿ID超出范围: " ++ toString stallId] else []
    (s,
     { offset := offset, cmdWord := cmdWord, dataWord := dataWord, cmdType := "STALL",
       description := "停顿等待 ID=" ++ toString stallId,
       details := if stallId = 7 then ["等待所有路径渲染完成"] else [],
       isAbnormal := ¬ reasons.isEmpty, abnormalReasons := reasons })
  else if opcode = CommandType.DATA then
    let dataCount := cmdWord &&& 0x0FFFFFFF
    let s1 := if dataCount = 1 ∧ s.parseImage = true ∧ s.currentImage.srcAddress ≠ 0 then
        finalize_image_draw s offset
      else s
    let description := if dataCount = 1 then "矩形绘制数据 (Blit)"
      else "路径数据 (" ++ toString (dataCount * 8) ++ " 字节, " ++ toString dataCount ++ " 条目)"
    let reasons := if dataCount > 0x10000 then
        ["数据量异常大: " ++ toString (dataCount * 8) ++ " 字节"]
      else []
    (s1,
     { offset := offset, cmdWord := cmdWord, dataWord := dataWord, cmdType := "DATA",
       description := description, details := [],
       isAbnormal := ¬ reasons.isEmpty, abnormalReasons := reasons })
  else if opcode = CommandType.CALL then
    let callCount := cmdWord &&& 0x0FFFFFFF
    let callBytes := callCount * 8
    let reasons := if dataWord ∈ SUSPICIOUS_ADDRESSES then
        ["调用地址可疑: 0x" ++ toHexUpper 8 dataWord]
      else []
    (s,
     { offset := offset, cmdWord := cmdWord, dataWord := dataWord, cmdType := "CALL",
       description := "调用上传路径 (Uploaded Path)",
       details := ["地址: 0x" ++ toHexUpper 8 dataWord,
                   "长度: " ++ toString callBytes ++ " 字节 (" ++ toString callCount ++ " 条目)"],
       isAbnormal := ¬ reasons.isEmpty, abnormalReasons := reasons })
  else if opcode = CommandType.RETURN then
    (s,
     { offset := offset, cmdWord := cmdWord, dataWord := dataWord, cmdType := "RETURN",
       description := "返回", details := [], isAbnormal := false, abnormalReasons := [] })
  else if opcode = CommandType.NOP then
    (s,
     { offset := offset, cmdWord := cmdWord, dataWord := dataWord, cmdType := "NOP",
       description := "空操作", details := [], isAbnormal := false, abnormalReasons := [] })
  else
    (s,
     { offset := offset, cmdWord := cmdWord, dataWord := dataWord, cmdType := "UNKNOWN",
       description := "未知命令 (opcode: 0x" ++ toHexUpper 8 opcode ++ ")",
       details := [], isAbnormal := true,
       abnormalReasons := ["未知操作码: 0x" ++ toHexUpper 8 opcode] })

/-- Source `parse_line`: clean the line, search for the hex pair, decode. -/
def parse_line (s : ParserState) (line : String) (offset : Nat) :
    Option (ParserState × ParsedCommand) :=
  match searchPair (clean_log_line line).data with
  | none => none
  | some p => some (decode_command s offset p.1 p.2)

/-! ### The `parse_log` loop -/

/-- The loop-local variables of `parse_log` together with the parser
state. -/
structure LoopState where
  ps : ParserState
  offset : Nat
  skipLines : Nat
  pendingPathData : List (Nat × Nat)
deriving DecidableEq, Repr

def MAX_REASONABLE_DATA_COUNT : Nat := 0x1000

/-- Source `start_new_section`: push the current section if it has commands,
open a fresh one, reset the offset cursor.  (The source touches nothing
else: in particular `skip_lines`, `pending_path_data`, the path format and
the image state are left as they are.) -/
def startNewSection (ls : LoopState) (name : String) : LoopState :=
  let ps := ls.ps
  let ps := match ps.currentSection with
    | some sec =>
      if sec.commands ≠ [] then { ps with commandSections := ps.commandSections ++ [sec] }
      else ps
    | none => ps
  { ls with
      ps := { ps with currentSection := some { name := name } },
      offset := 0 }

/-- Source `_flatten_path_data`. -/
def regroupPairs : List Nat → List (Nat × Nat)
  | [] => []
  | [a] => [(a, 0)]
  | a :: b :: t => (a, b) :: regroupPairs t

def flatten_path_data (pending : List (Nat × Nat)) : List (Nat × Nat) :=
  regroupPairs (pending.foldr (fun p acc => p.1 :: p.2 :: acc) [])

/-- The in-place mutation of the most recent `DATA` command when pending
payload is flushed onto it. -/
def attachPath (parse_path : Bool) (fmt : String) (pending : List (Nat × Nat))
    (c : ParsedCommand) : ParsedCommand :=
  let pd := flatten_path_data pending
  let c1 := { c with pathData := pd }
  if parse_path then { c1 with pathSegments := parse_path_data fmt pd } else c1

def updateLast (f : α → α) : List α → List α
  | [] => []
  | [a] => [f a]
  | a :: b :: t => a :: updateLast f (b :: t)

/-- Apply the in-place mutation of the shared last command to a section's
lists (`ab` says whether the shared object also sits in the abnormal
lists). -/
def sectionUpdateLast (f : ParsedCommand → ParsedCommand) (ab : Bool)
    (sec : CommandSection) : CommandSection :=
  { sec with
      commands := updateLast f sec.commands,
      abnormalCommands := if ab then updateLast f sec.abnormalCommands else sec.abnormalCommands }

/-- The pending-payload flush performed when a new command is decoded: the
source mutates `last_cmd` (the shared object that is the last element of
both the current section's lists and the parser's lists) in place; the
model updates the last element of each list holding it. -/
def flushPending (ps : ParserState) (pending : List (Nat × Nat)) : ParserState :=
  match ps.currentSection with
  | none => ps
  | some sec =>
    if pending = [] ∨ sec.commands = [] then ps
    else
      match sec.commands.getLast? with
      | none => ps
      | some lastCmd =>
        if lastCmd.cmdType = "DATA" then
          let f := attachPath ps.parsePath ps.currentPathFormat pending
          { ps with
              currentSection := some (sectionUpdateLast f lastCmd.isAbnormal sec),
              commands := updateLast f ps.commands,
              abnormalCommands :=
                if lastCmd.isAbnormal then updateLast f ps.abnormalCommands
                else ps.abnormalCommands }
        else ps

/-- If no section is open yet, open the implicit one (`命令缓冲区`). -/
def ensureSection (ps : ParserState) : ParserState :=
  match ps.currentSection with
  | none => { ps with currentSection := some { name := "命令缓冲区" } }
  | some _ => ps

/-- Append the freshly decoded command to the current section's lists and
the parser's lists (and the abnormal lists when flagged). -/
def appendCmd (ps : ParserState) (cmd : ParsedCommand) : ParserState :=
  match ps.currentSection with
  | some sec =>
    { ps with
        currentSection := some
          { sec with
              commands := sec.commands ++ [cmd],
              abnormalCommands := sec.abnormalCommands ++ (if cmd.isAbnormal then [cmd] else []) },
        commands := ps.commands ++ [cmd],
        abnormalCommands := ps.abnormalCommands ++ (if cmd.isAbnormal then [cmd] else []) }
  | none => ps

/-- One iteration of the `while` loop of `parse_log` (the loop reads one
line per iteration and never looks ahead, so it is a fold).  Branch order
as in the source: empty line, section markers, `addr/size` metadata,
`idle reg`, pending payload consumption, command decoding. -/
def processLine (ls : LoopState) (originalLine : String) : LoopState :=
  let line := clean_log_line originalLine
  if line = "" then ls
  else
    let lower := pyLower line
    if containsSub "init command buffer" lower then startNewSection ls "初始化命令缓冲区"
    else if containsSub "last submit command" lower then
      (if containsSub "before hang" lower then startNewSection ls "挂起前最后提交的命令"
       else startNewSection ls "最后提交的命令")
    else if containsSub "addr 0x" lower && containsSub "size 0x" lower then
      (match findHexAfterKey "addr" line, findHexAfterKey "size" line, ls.ps.currentSection with
       | some a, some sz, some sec =>
         { ls with ps := { ls.ps with
             currentSection := some { sec with address := some a, size := some sz } } }
       | _, _, _ => ls)
    else if containsSub "idle reg" lower then ls
    else if ls.skipLines > 0 then
      let pending := match searchPair line.data with
        | some p => ls.pendingPathData ++ [p]
        | none => ls.pendingPathData
      { ls with pendingPathData := pending, skipLines := ls.skipLines - 1,
                offset := ls.offset + 8 }
    else
      match parse_line ls.ps originalLine ls.offset with
      | none => ls
      | some pc =>
        let cmd := pc.2
        let ps2 := ensureSection pc.1
        let ps3 := flushPending ps2 ls.pendingPathData
        let ps4 := appendCmd ps3 cmd
        let skip := if cmd.cmdType = "DATA" then
            (let dataCount := cmd.cmdWord &&& 0x0FFFFFFF
             if dataCount > MAX_REASONABLE_DATA_COUNT then 0 else dataCount)
          else ls.skipLines
        { ps := ps4, offset := ls.offset + 8, skipLines := skip, pendingPathData := [] }

/-- The end-of-input flush of `parse_log`.  It runs after the current
section has been pushed into `command_sections`, so the shared last
command also sits in the last pushed section. -/
def finalFlush (ps : ParserState) (pending : List (Nat × Nat)) : ParserState :=
  match ps.currentSection with
  | none => ps
  | some sec =>
    if pending = [] ∨ sec.commands = [] then ps
    else
      match sec.commands.getLast? with
      | none => ps
      | some lastCmd =>
        if lastCmd.cmdType = "DATA" then
          let f := attachPath ps.parsePath ps.currentPathFormat pending
          { ps with
              currentSection := some (sectionUpdateLast f lastCmd.isAbnormal sec),
              commandSections := updateLast (sectionUpdateLast f lastCmd.isAbnormal) ps.commandSections,
              commands := updateLast f ps.commands,
              abnormalCommands :=
                if lastCmd.isAbnormal then updateLast f ps.abnormalCommands
                else ps.abnormalCommands }
        else ps

/-- The final `parse_path` pass of `parse_log` over `self.commands`
(mutating shared objects, hence mapped over every list). -/
def finalPathFix (fmt : String) (c : ParsedCommand) : ParsedCommand :=
  if c.cmdType = "DATA" ∧ c.pathData ≠ [] ∧ c.pathSegments = [] then
    { c with pathSegments := parse_path_data fmt c.pathData }
  else c

def finalPathPass (ps : ParserState) : ParserState :=
  let f := finalPathFix ps.currentPathFormat
  let g := fun (sec : CommandSection) =>
    { sec with commands := sec.commands.map f, abnormalCommands := sec.abnormalCommands.map f }
  { ps with
      commands := ps.commands.map f,
      abnormalCommands := ps.abnormalCommands.map f,
      commandSections := ps.commandSections.map g,
      currentSection := ps.currentSection.map g }

/-- Source `parse_log`: reset `commands` / `command_sections` / `current_section`
(note the source does NOT reset `current_path_format`, the image state or
`abnormal_commands`), fold the loop over the lines, push the last section,
flush any remaining pending payload, run the final path pass; returns the
final parser state and `self.commands`. -/
def parse_log (s : ParserState) (logText : String) : ParserState × List ParsedCommand :=
  let s0 := { s with commands := [], commandSections := [], currentSection := none }
  let lines := (splitNl (pyStrip logText.data)).map fun cs => String.mk cs
  let ls := lines.foldl processLine
    { ps := s0, offset := 0, skipLines := 0, pendingPathData := [] }
  let ps := ls.ps
  let ps := match ps.currentSection with
    | some sec =>
      if sec.commands ≠ [] then { ps with commandSections := ps.commandSections ++ [sec] }
      else ps
    | none => ps
  let ps := finalFlush ps ls.pendingPathData
  let ps := if ps.parsePath then finalPathPass ps else ps
  (ps, ps.commands)

/-! ## `coredump_parser.py` -/

/-- A `PT_LOAD` program-header entry of the snapshot. -/
structure CoreSegment where
  vaddr : Nat
  filesz : Nat
  memsz : Nat
  offset : Nat
deriving DecidableEq, Repr

/-- Source `CoredumpParser.read_memory`: first the LOAD segments in order (a
segment that contains the address but whose translated range exceeds the
snapshot is skipped, the scan continues), then the flat-offset fallback
(Python slicing, which truncates at the end of the snapshot). -/
def read_memory : List CoreSegment → List Nat → Nat → Nat → Option (List Nat)
  | [], core, address, size =>
    if address < core.length then some ((core.drop address).take size) else none
  | seg :: rest, core, address, size =>
    if seg.vaddr ≤ address ∧ address < seg.vaddr + seg.filesz then
      (if seg.offset + (address - seg.vaddr) + size ≤ core.length then
         some ((core.drop (seg.offset + (address - seg.vaddr))).take size)
       else read_memory rest core address size)
    else read_memory rest core address size

/-- The body of the `_resolve_uploaded_paths` loop for one `CALL`
command, given the current path format and the result of the
`read_memory` call (abstracted as a read function so the same definition
serves any memory state). -/
def resolveCallStep (readFn : Nat → Nat → Option (List Nat)) (fmt : String)
    (cmd : ParsedCommand) : ParsedCommand :=
  let callDataCount := cmd.cmdWord &&& 0x0FFFFFFF
  let pathAddress := cmd.dataWord
  let pathSize := callDataCount * 8
  if pathAddress = 0 ∨ pathSize = 0 then cmd
  else
    match readFn pathAddress pathSize with
    | none =>
      { cmd with details := cmd.details ++ ["[无法读取地址 0x" ++ toHexUpper 8 pathAddress ++ "]"] }
    | some pathData =>
      if pathData.length < 16 then { cmd with details := cmd.details ++ ["[数据太短]"] }
      else
        let headerWord := u32LE pathData 0
        if headerWord &&& 0xF0000000 ≠ 0x40000000 then
          { cmd with details := cmd.details ++
              ["[包头校验失败: 期望 DATA(0x4xxxxxxx), 实际 0x" ++ toHexUpper 8 headerWord ++ "]"] }
        else
          let tailWord := u32LE pathData (pathData.length - 8)
          if tailWord ≠ 0x70000000 then
            { cmd with details := cmd.details ++
                ["[包尾校验失败: 期望 RETURN(0x70000000), 实际 0x" ++ toHexUpper 8 tailWord ++ "]"] }
          else
            let pathDataDwordCount := headerWord &&& 0x0FFFFFFF
            let actualPathBytes := (pathData.drop 8).take (pathData.length - 16)
            let c1 := { cmd with details := cmd.details ++
                ["[Upload Path: 格式=" ++ fmt ++ ", 包头 DATA(" ++ toString pathDataDwordCount
                  ++ "), 包尾 RETURN]"] }
            let segs := parse_bytes fmt actualPathBytes
            let c2 := { c1 with pathSegments := segs }
            if segs ≠ [] then
              { c2 with details := c2.details ++ ["[解析出 " ++ toString segs.length ++ " 个路径段]"] }
            else c2

/-- The `_resolve_uploaded_paths` loop: track `VgPathControl` writes for
the current path format, resolve each `CALL`. -/
def resolveUploadedPathsGo (readFn : Nat → Nat → Option (List Nat)) :
    String → List ParsedCommand → List ParsedCommand
  | _, [] => []
  | fmt, cmd :: rest =>
    let fmt := if cmd.cmdType = "STATE" ∧ (cmd.cmdWord &&& 0xFFFF) = 0x0A34 then
        (let fmtBits := (cmd.dataWord >>> 20) &&& 0x3
         if fmtBits = 0 then "S8" else if fmtBits = 1 then "S16"
         else if fmtBits = 2 then "S32" else "FP32")
      else fmt
    let cmd := if cmd.cmdType = "CALL" then resolveCallStep readFn fmt cmd else cmd
    cmd :: resolveUploadedPathsGo readFn fmt rest

def resolveUploadedPaths (readFn : Nat → Nat → Option (List Nat))
    (cmds : List ParsedCommand) : List ParsedCommand :=
  resolveUploadedPathsGo readFn "FP32" cmds

/-! ## Helper lemmas -/

/-- One pass over the register dispatch of `_decode_state_data`: the
detail strings do not depend on the parser state, and the state update
never touches the command list or the current section. -/
theorem decode_state_data_props (s1 s2 : ParserState) (a d : Nat) :
    (decode_state_data s1 a d).2 = (decode_state_data s2 a d).2 ∧
    (decode_state_data s1 a d).1.commands = s1.commands ∧
    (decode_state_data s1 a d).1.currentSection = s1.currentSection := by
  unfold decode_state_data
  by_cases h : a = 0x0A00
  · rw [if_pos h, if_pos h]
    refine ⟨rfl, ?_, ?_⟩ <;> split_ifs <;> rfl
  rw [if_neg h, if_neg h]
  by_cases h : a = 0x0A02
  · rw [if_pos h, if_pos h]
    exact ⟨rfl, rfl, rfl⟩
  rw [if_neg h, if_neg h]
  by_cases h : a = 0x0A34
  · rw [if_pos h, if_pos h]
    exact ⟨rfl, rfl, rfl⟩
  rw [if_neg h, if_neg h]
  by_cases h : a = 0x0A39
  · rw [if_pos h, if_pos h]
    exact ⟨rfl, rfl, rfl⟩
  rw [if_neg h, if_neg h]
  by_cases h : a = 0x0A3A
  · rw [if_pos h, if_pos h]
    exact ⟨rfl, rfl, rfl⟩
  rw [if_neg h, if_neg h]
  by_cases h : a = 0x0A3B
  · rw [if_pos h, if_pos h]
    exact ⟨rfl, rfl, rfl⟩
  rw [if_neg h, if_neg h]
  by_cases h : a = 0x0A3C
  · rw [if_pos h, if_pos h]
    exact ⟨rfl, rfl, rfl⟩
  rw [if_neg h, if_neg h]
  by_cases h : a = 0x0A01
  · rw [if_pos h, if_pos h]
    refine ⟨rfl, ?_, ?_⟩ <;> split_ifs <;> rfl
  rw [if_neg h, if_neg h]
  by_cases h : a = 0x0A29
  · rw [if_pos h, if_pos h]
    refine ⟨rfl, ?_, ?_⟩ <;> split_ifs <;> rfl
  rw [if_neg h, if_neg h]
  by_cases h : a = 0x0A10
  · rw [if_pos h, if_pos h]
    refine ⟨rfl, ?_, ?_⟩ <;> split_ifs <;> rfl
  rw [if_neg h, if_neg h]
  by_cases h : a = 0x0A11
  · rw [if_pos h, if_pos h]
    refine ⟨rfl, ?_, ?_⟩ <;> split_ifs <;> rfl
  rw [if_neg h, if_neg h]
  by_cases h : a = 0x0A12
  · rw [if_pos h, if_pos h]
    refine ⟨rfl, ?_, ?_⟩ <;> split_ifs <;> rfl
  rw [if_neg h, if_neg h]
  by_cases h : a = 0x0A13
  · rw [if_pos h, if_pos h]
    refine ⟨rfl, ?_, ?_⟩ <;> split_ifs <;> rfl
  rw [if_neg h, if_neg h]
  by_cases h : a = 0x0A25
  · rw [if_pos h, if_pos h]
    refine ⟨rfl, ?_, ?_⟩ <;> split_ifs <;> rfl
  rw [if_neg h, if_neg h]
  by_cases h : a = 0x0A2B
  · rw [if_pos h, if_pos h]
    refine ⟨rfl, ?_, ?_⟩ <;> split_ifs <;> rfl
  rw [if_neg h, if_neg h]
  by_cases h : a = 0x0A2D
  · rw [if_pos h, if_pos h]
    exact ⟨rfl, rfl, rfl⟩
  rw [if_neg h, if_neg h]
  by_cases h : a = 0x0A2F
  · rw [if_pos h, if_pos h]
    refine ⟨rfl, ?_, ?_⟩ <;> split_ifs <;> rfl
  rw [if_neg h, if_neg h]
  by_cases h : a = 0x0A1B
  · rw [if_pos h, if_pos h]
    exact ⟨rfl, rfl, rfl⟩
  rw [if_neg h, if_neg h]
  by_cases h : a = 0x0A3D
  · rw [if_pos h, if_pos h]
    exact ⟨rfl, rfl, rfl⟩
  rw [if_neg h, if_neg h]
  by_cases h : 0x0A40 ≤ a ∧ a < 0x0A46
  · rw [if_pos h, if_pos h]
    exact ⟨rfl, rfl, rfl⟩
  rw [if_neg h, if_neg h]
  by_cases h : 0x0A30 ≤ a ∧ a < 0x0A39
  · rw [if_pos h, if_pos h]
    refine ⟨rfl, ?_, ?_⟩ <;> split_ifs <;> rfl
  rw [if_neg h, if_neg h]
  exact ⟨rfl, rfl, rfl⟩

theorem finalize_commands (s : ParserState) (o : Nat) :
    (finalize_image_draw s o).commands = s.commands := by
  unfold finalize_image_draw
  split_ifs <;> rfl

theorem finalize_section (s : ParserState) (o : Nat) :
    (finalize_image_draw s o).currentSection = s.currentSection := by
  unfold finalize_image_draw
  split_ifs <;> rfl

theorem decode_commands (s : ParserState) (o c d : Nat) :
    (decode_command s o c d).1.commands = s.commands := by
  unfold decode_command
  by_cases h : c &&& 0xF0000000 = CommandType.STATE
  · rw [if_pos h]
    by_cases h2 : (c >>> 16) &&& 0xFF = 1
    · rw [if_pos h2]
      exact (decode_state_data_props s s _ _).2.1
    · rw [if_neg h2]
  rw [if_neg h]
  by_cases h : c &&& 0xF0000000 = CommandType.END
  · rw [if_pos h]
  rw [if_neg h]
  by_cases h : c &&& 0xF0000000 = CommandType.SEMAPHORE
  · rw [if_pos h]
  rw [if_neg h]
  by_cases h : c &&& 0xF0000000 = CommandType.STALL
  · rw [if_pos h]
  rw [if_neg h]
  by_cases h : c &&& 0xF0000000 = CommandType.DATA
  · rw [if_pos h]
    dsimp only
    split_ifs with h3
    · exact finalize_commands s o
    · rfl
  rw [if_neg h]
  by_cases h : c &&& 0xF0000000 = CommandType.CALL
  · rw [if_pos h]
  rw [if_neg h]
  by_cases h : c &&& 0xF0000000 = CommandType.RETURN
  · rw [if_pos h]
  rw [if_neg h]
  by_cases h : c &&& 0xF0000000 = CommandType.NOP
  · rw [if_pos h]
  rw [if_neg h]

theorem decode_section (s : ParserState) (o c d : Nat) :
    (decode_command s o c d).1.currentSection = s.currentSection := by
  unfold decode_command
  by_cases h : c &&& 0xF0000000 = CommandType.STATE
  · rw [if_pos h]
    by_cases h2 : (c >>> 16) &&& 0xFF = 1
    · rw [if_pos h2]
      exact (decode_state_data_props s s _ _).2.2
    · rw [if_neg h2]
  rw [if_neg h]
  by_cases h : c &&& 0xF0000000 = CommandType.END
  · rw [if_pos h]
  rw [if_neg h]
  by_cases h : c &&& 0xF0000000 = CommandType.SEMAPHORE
  · rw [if_pos h]
  rw [if_neg h]
  by_cases h : c &&& 0xF0000000 = CommandType.STALL
  · rw [if_pos h]
  rw [if_neg h]
  by_cases h : c &&& 0xF0000000 = CommandType.DATA
  · rw [if_pos h]
    dsimp only
    split_ifs with h3
    · exact finalize_section s o
    · rfl
  rw [if_neg h]
  by_cases h : c &&& 0xF0000000 = CommandType.CALL
  · rw [if_pos h]
  rw [if_neg h]
  by_cases h : c &&& 0xF0000000 = CommandType.RETURN
  · rw [if_pos h]
  rw [if_neg h]
  by_cases h : c &&& 0xF0000000 = CommandType.NOP
  · rw [if_pos h]
  rw [if_neg h]

theorem parse_line_state (s : ParserState) (line : String) (off : Nat)
    (ps1 : ParserState) (cmd : ParsedCommand)
    (h : parse_line s line off = some (ps1, cmd)) :
    ps1.commands = s.commands ∧ ps1.currentSection = s.currentSection := by
  unfold parse_line at h
  cases hsp : searchPair (clean_log_line line).data with
  | none => rw [hsp] at h; simp at h
  | some p =>
    rw [hsp] at h
    have hd : decode_command s off p.1 p.2 = (ps1, cmd) := Option.some.inj h
    have h1 : ps1 = (decode_command s off p.1 p.2).1 := by rw [hd]
    rw [h1, decode_commands, decode_section]
    exact ⟨rfl, rfl⟩

theorem updateLast_length (f : α → α) (l : List α) :
    (updateLast f l).length = l.length := by
  induction l with
  | nil => rfl
  | cons a t ih =>
    cases t with
    | nil => rfl
    | cons b t2 => simpa [updateLast] using ih

theorem ensureSection_commands (p : ParserState) :
    (ensureSection p).commands = p.commands := by
  unfold ensureSection
  split <;> rfl

theorem ensureSection_isSome (p : ParserState) :
    (ensureSection p).currentSection.isSome = true := by
  unfold ensureSection
  split
  · rfl
  · rename_i sec heq
    rw [heq]
    rfl

theorem flushPending_commands_length (ps : ParserState) (pending : List (Nat × Nat)) :
    (flushPending ps pending).commands.length = ps.commands.length := by
  unfold flushPending
  split
  · rfl
  · split_ifs with h1
    · rfl
    · split
      · rfl
      · split_ifs <;> simp [updateLast_length]

theorem flushPending_isSome (ps : ParserState) (pending : List (Nat × Nat)) :
    (flushPending ps pending).currentSection.isSome = ps.currentSection.isSome := by
  unfold flushPending
  split
  · rfl
  · rename_i sec hsec
    split_ifs with h1
    · rfl
    · split
      · rfl
      · split_ifs <;> simp [hsec]

theorem flushPending_nil (ps : ParserState) : flushPending ps [] = ps := by
  unfold flushPending
  split
  · rfl
  · simp

theorem appendCmd_commands (ps : ParserState) (cmd : ParsedCommand)
    (h : ps.currentSection.isSome = true) :
    (appendCmd ps cmd).commands = ps.commands ++ [cmd] := by
  unfold appendCmd
  split
  · rfl
  · rename_i hnone
    rw [hnone] at h
    exact absurd h (by simp)

theorem formatSize_pos (fmt : String) : 0 < formatSize fmt := by
  unfold formatSize
  split_ifs <;> norm_num

theorem readCoordsLoop_snd_le (fmt : String) (data : List Nat) :
    ∀ n offset, offset ≤ (readCoordsLoop fmt data offset n).2 := by
  intro n
  induction n with
  | zero => intro offset; exact Nat.le_refl _
  | succ n ih =>
    intro offset
    unfold readCoordsLoop
    split_ifs with h
    · exact Nat.le_refl _
    · exact Nat.le_trans (Nat.le_add_right _ _) (ih (offset + formatSize fmt))

theorem readCoordsLoop_length_le (fmt : String) (data : List Nat) :
    ∀ n offset, (readCoordsLoop fmt data offset n).1.length ≤ n := by
  intro n
  induction n with
  | zero => intro offset; exact Nat.le_refl _
  | succ n ih =>
    intro offset
    unfold readCoordsLoop
    split_ifs with h
    · exact Nat.zero_le _
    · dsimp only
      cases read_coord fmt data offset with
      | none => exact Nat.le_succ_of_le (ih (offset + formatSize fmt))
      | some v => simpa using ih (offset + formatSize fmt)

/-- Fuel irrelevance for the path-interpreter loop: any fuel above the
number of remaining bytes gives the same result. -/
theorem parseBytesGoF_fuel (fmt : String) (data : List Nat) :
    ∀ f1 f2 offset, data.length - offset < f1 → data.length - offset < f2 →
      parseBytesGoF fmt data offset f1 = parseBytesGoF fmt data offset f2 := by
  intro f1
  induction f1 with
  | zero => intro f2 offset h1; exact absurd h1 (Nat.not_lt_zero _)
  | succ a ih =>
    intro f2 offset h1 h2
    cases f2 with
    | zero => exact absurd h2 (Nat.not_lt_zero _)
    | succ b =>
      unfold parseBytesGoF
      by_cases h : offset < data.length
      · rw [if_pos h, if_pos h]
        cases hop : read_opcode fmt data offset with
        | none => rfl
        | some op =>
          dsimp only
          cases hvl : VLC_OP_CODES (op % 256) with
          | none =>
            have hfs := formatSize_pos fmt
            exact ih b (offset + formatSize fmt) (by omega) (by omega)
          | some info =>
            dsimp only
            by_cases hz : op = 0
            · rw [if_pos hz, if_pos hz]
            · rw [if_neg hz, if_neg hz]
              have hle := readCoordsLoop_snd_le fmt data info.2 (offset + formatSize fmt)
              have hfs := formatSize_pos fmt
              have := ih b (readCoordsLoop fmt data (offset + formatSize fmt) info.2).2
                (by omega) (by omega)
              rw [this]
      · rw [if_neg h, if_neg h]

theorem getLast_append_singleton (l : List α) (a : α) :
    (l ++ [a]).getLast? = some a := by
  induction l with
  | nil => rfl
  | cons b t ih =>
    cases t with
    | nil => rfl
    | cons c t2 =>
      rw [List.cons_append, List.cons_append, List.getLast?_cons_cons]
      exact ih

/-- A cleaned line that takes none of the special branches of the
`parse_log` loop (empty line, section markers, `addr/size` metadata,
`idle reg`): exactly the guards the loop tests, negated. -/
def plainCommandLine (line : String) : Prop :=
  clean_log_line line ≠ "" ∧
  containsSub "init command buffer" (pyLower (clean_log_line line)) = false ∧
  containsSub "last submit command" (pyLower (clean_log_line line)) = false ∧
  (containsSub "addr 0x" (pyLower (clean_log_line line)) &&
    containsSub "size 0x" (pyLower (clean_log_line line))) = false ∧
  containsSub "idle reg" (pyLower (clean_log_line line)) = false

instance (line : String) : Decidable (plainCommandLine line) := by
  unfold plainCommandLine
  infer_instance

/-- How one loop iteration handles a plain command line when no payload
skip is pending. -/
theorem processLine_command (ls : LoopState) (line : String)
    (ps1 : ParserState) (cmd : ParsedCommand)
    (hskip : ls.skipLines = 0)
    (h : plainCommandLine line)
    (hparse : parse_line ls.ps line ls.offset = some (ps1, cmd)) :
    processLine ls line =
      { ps := appendCmd (flushPending (ensureSection ps1) ls.pendingPathData) cmd,
        offset := ls.offset + 8,
        skipLines := if cmd.cmdType = "DATA" then
            (let dataCount := cmd.cmdWord &&& 0x0FFFFFFF
             if dataCount > MAX_REASONABLE_DATA_COUNT then 0 else dataCount)
          else ls.skipLines,
        pendingPathData := [] } := by
  obtain ⟨hne, m1, m2, m3, m4⟩ := h
  have c1 : ¬ (containsSub "init command buffer" (pyLower (clean_log_line line)) = true) := by
    rw [m1]; simp
  have c2 : ¬ (containsSub "last submit command" (pyLower (clean_log_line line)) = true) := by
    rw [m2]; simp
  have c3 : ¬ ((containsSub "addr 0x" (pyLower (clean_log_line line)) &&
      containsSub "size 0x" (pyLower (clean_log_line line))) = true) := by
    rw [m3]; simp
  have c4 : ¬ (containsSub "idle reg" (pyLower (clean_log_line line)) = true) := by
    rw [m4]; simp
  unfold processLine
  rw [if_neg hne, if_neg c1, if_neg c2, if_neg c3, if_neg c4, hskip]
  rw [if_neg (by decide : ¬ ((0 : Nat) > 0))]
  rw [hparse]

/-! ## Claim theorems -/

/-- C8: every command word whose top-4-bit opcode class is none of the
known classes (END, SEMAPHORE, STALL, STATE, DATA, CALL, RETURN, NOP)
decodes to an `UNKNOWN` instruction whose anomaly flag is set, with a
reason naming the unknown opcode. -/
theorem c8_unknown_opcode_always_abnormal (s : ParserState) (offset cw dw : Nat)
    (h1 : cw &&& 0xF0000000 ≠ CommandType.STATE)
    (h2 : cw &&& 0xF0000000 ≠ CommandType.END)
    (h3 : cw &&& 0xF0000000 ≠ CommandType.SEMAPHORE)
    (h4 : cw &&& 0xF0000000 ≠ CommandType.STALL)
    (h5 : cw &&& 0xF0000000 ≠ CommandType.DATA)
    (h6 : cw &&& 0xF0000000 ≠ CommandType.CALL)
    (h7 : cw &&& 0xF0000000 ≠ CommandType.RETURN)
    (h8 : cw &&& 0xF0000000 ≠ CommandType.NOP) :
    (decode_command s offset cw dw).2.cmdType = "UNKNOWN" ∧
    (decode_command s offset cw dw).2.isAbnormal = true ∧
    (decode_command s offset cw dw).2.abnormalReasons =
      ["未知操作码: 0x" ++ toHexUpper 8 (cw &&& 0xF0000000)] := by
  unfold decode_command
  rw [if_neg h1, if_neg h2, if_neg h3, if_neg h4, if_neg h5, if_neg h6, if_neg h7, if_neg h8]
  exact ⟨rfl, rfl, rfl⟩

theorem c8_unknown_opcode_always_abnormal_witness :
    ((0x50000000 : Nat) &&& 0xF0000000 ≠ CommandType.STATE) ∧
    (decode_command (initParser false false false) 0 0x50000000 0).2.cmdType = "UNKNOWN" ∧
    (decode_command (initParser false false false) 0 0x50000000 0).2.isAbnormal = true ∧
    (decode_command (initParser false false false) 0 0x50000000 0).2.abnormalReasons =
      ["未知操作码: 0x" ++ toHexUpper 8 ((0x50000000 : Nat) &&& 0xF0000000)] :=
  ⟨by decide,
   c8_unknown_opcode_always_abnormal (initParser false false false) 0 0x50000000 0
     (by decide) (by decide) (by decide) (by decide) (by decide) (by decide) (by decide) (by decide)⟩

/-- C9: the word pair `cmd_word = 0x30010A00`, `data_word = 0x00000100`
decodes to a STATE (single register write) instruction targeting
register 0x0A00 (VgControl, the blend-mode/control register), and its
detail strings name `SRC_OVER` as the recognized blend mode. -/
theorem c9_blend_mode_state_write :
    (decode_command (initParser false false false) 0 0x30010A00 0x00000100).2.cmdType = "STATE" ∧
    ((0x30010A00 : Nat) &&& 0xFFFF) = 0x0A00 ∧
    (decode_command (initParser false false false) 0 0x30010A00 0x00000100).2.description
      = "写寄存器 VgControl" ∧
    (decode_command (initParser false false false) 0 0x30010A00 0x00000100).2.details
      = ["混合模式: SRC_OVER"] ∧
    (decode_command (initParser false false false) 0 0x30010A00 0x00000100).2.isAbnormal = false := by
  decide

/-- C10: the decoded instruction produced for a word pair is a function
of `(offset, cmd_word, data_word)` alone: decoding the same pair at the
same offset from any two decoder states (even with different option
flags) yields equal `ParsedCommand` values — prior instructions can only
influence the state component, i.e. what gets attached later. -/
theorem c10_decode_command_state_independent (s1 s2 : ParserState) (offset cw dw : Nat) :
    (decode_command s1 offset cw dw).2 = (decode_command s2 offset cw dw).2 := by
  unfold decode_command
  by_cases h : cw &&& 0xF0000000 = CommandType.STATE
  · rw [if_pos h, if_pos h]
    by_cases h2 : (cw >>> 16) &&& 0xFF = 1
    · rw [if_pos h2, if_pos h2]
      dsimp only
      rw [(decode_state_data_props s1 s2 (cw &&& 0xFFFF) dw).1]
    · rw [if_neg h2, if_neg h2]
  rw [if_neg h, if_neg h]
  by_cases h : cw &&& 0xF0000000 = CommandType.END
  · rw [if_pos h, if_pos h]
  rw [if_neg h, if_neg h]
  by_cases h : cw &&& 0xF0000000 = CommandType.SEMAPHORE
  · rw [if_pos h, if_pos h]
  rw [if_neg h, if_neg h]
  by_cases h : cw &&& 0xF0000000 = CommandType.STALL
  · rw [if_pos h, if_pos h]
  rw [if_neg h, if_neg h]
  by_cases h : cw &&& 0xF0000000 = CommandType.DATA
  · rw [if_pos h, if_pos h]
  rw [if_neg h, if_neg h]
  by_cases h : cw &&& 0xF0000000 = CommandType.CALL
  · rw [if_pos h, if_pos h]
  rw [if_neg h, if_neg h]
  by_cases h : cw &&& 0xF0000000 = CommandType.RETURN
  · rw [if_pos h, if_pos h]
  rw [if_neg h, if_neg h]
  by_cases h : cw &&& 0xF0000000 = CommandType.NOP
  · rw [if_pos h, if_pos h]
  rw [if_neg h, if_neg h]

/-- C4: a `DATA` instruction with count 1 (rectangle-blit marker), with
image tracking enabled and a nonzero in-progress source address, appends
exactly one image-draw record — tagged with the instruction's offset and
the current section name, holding the current transform matrix by value —
and afterwards clears only the in-progress source address (every
destination field, and the matrix and blend mode, keep their values). -/
theorem c4_blit_marker_finalizes_image_draw (s : ParserState) (offset cw dw : Nat)
    (himg : s.parseImage = true)
    (hop : cw &&& 0xF0000000 = CommandType.DATA)
    (hcnt : cw &&& 0x0FFFFFFF = 1)
    (hsrc : s.currentImage.srcAddress ≠ 0) :
    (decode_command s offset cw dw).1.imageDraws = s.imageDraws ++
      [{ srcAddress := s.currentImage.srcAddress
         srcFormat := s.currentImage.srcFormat
         srcFormatRaw := s.currentImage.srcFormatRaw
         srcWidth := s.currentImage.srcWidth
         srcHeight := s.currentImage.srcHeight
         srcStride := s.currentImage.srcStride
         dstAddress := s.currentImage.dstAddress
         dstFormat := s.currentImage.dstFormat
         dstFormatRaw := s.currentImage.dstFormatRaw
         dstWidth := s.currentImage.dstWidth
         dstHeight := s.currentImage.dstHeight
         dstStride := s.currentImage.dstStride
         matrix := s.imageMatrix
         blendMode := s.currentBlend
         offset := offset
         sectionName := match s.currentSection with
           | some sec => sec.name
           | none => "" }] ∧
    (decode_command s offset cw dw).1.currentImage = { s.currentImage with srcAddress := 0 } ∧
    (decode_command s offset cw dw).1.imageMatrix = s.imageMatrix ∧
    (decode_command s offset cw dw).1.currentBlend = s.currentBlend ∧
    (decode_command s offset cw dw).1.imageDraws.length = s.imageDraws.length + 1 := by
  have hS : cw &&& 0xF0000000 ≠ CommandType.STATE := by rw [hop]; decide
  have hE : cw &&& 0xF0000000 ≠ CommandType.END := by rw [hop]; decide
  have hM : cw &&& 0xF0000000 ≠ CommandType.SEMAPHORE := by rw [hop]; decide
  have hT : cw &&& 0xF0000000 ≠ CommandType.STALL := by rw [hop]; decide
  unfold decode_command
  rw [if_neg hS, if_neg hE, if_neg hM, if_neg hT, if_pos hop]
  dsimp only
  rw [hcnt, if_pos ⟨rfl, himg, hsrc⟩]
  unfold finalize_image_draw
  rw [if_neg hsrc]
  refine ⟨rfl, rfl, rfl, rfl, ?_⟩
  simp

def c4wState : ParserState :=
  { initParser false false true with
      currentImage := { srcAddress := 0x20000000, dstAddress := 0x30000000 },
      currentSection := some { name := "最后提交的命令" } }

theorem c4_blit_marker_finalizes_image_draw_witness :
    c4wState.parseImage = true ∧
    (decode_command c4wState 0x40 0x40000001 0).1.imageDraws = c4wState.imageDraws ++
      [{ srcAddress := c4wState.currentImage.srcAddress
         srcFormat := c4wState.currentImage.srcFormat
         srcFormatRaw := c4wState.currentImage.srcFormatRaw
         srcWidth := c4wState.currentImage.srcWidth
         srcHeight := c4wState.currentImage.srcHeight
         srcStride := c4wState.currentImage.srcStride
         dstAddress := c4wState.currentImage.dstAddress
         dstFormat := c4wState.currentImage.dstFormat
         dstFormatRaw := c4wState.currentImage.dstFormatRaw
         dstWidth := c4wState.currentImage.dstWidth
         dstHeight := c4wState.currentImage.dstHeight
         dstStride := c4wState.currentImage.dstStride
         matrix := c4wState.imageMatrix
         blendMode := c4wState.currentBlend
         offset := 0x40
         sectionName := match c4wState.currentSection with
           | some sec => sec.name
           | none => "" }] ∧
    (decode_command c4wState 0x40 0x40000001 0).1.currentImage
      = { c4wState.currentImage with srcAddress := 0 } ∧
    (decode_command c4wState 0x40 0x40000001 0).1.imageMatrix = c4wState.imageMatrix ∧
    (decode_command c4wState 0x40 0x40000001 0).1.currentBlend = c4wState.currentBlend ∧
    (decode_command c4wState 0x40 0x40000001 0).1.imageDraws.length
      = c4wState.imageDraws.length + 1 :=
  ⟨by decide,
   c4_blit_marker_finalizes_image_draw c4wState 0x40 0x40000001 0
     (by decide) (by decide) (by decide) (by decide)⟩

/-- C7, counterexample: the claim "the read operation either returns
exactly `length` bytes or returns `None`" is false: with no LOAD
segments, a 4-byte snapshot and the flat-offset fallback, `read(2, 4)`
returns the 2-byte tail instead of `None`. -/
theorem c7_read_memory_counterexample :
    ¬ (∀ (segs : List CoreSegment) (core : List Nat) (a n : Nat),
        read_memory segs core a n = none ∨
        ∃ bs, read_memory segs core a n = some bs ∧ bs.length = n) := by
  intro h
  have hval : read_memory [] [1, 2, 3, 4] 2 4 = some [3, 4] := by decide
  rcases h [] [1, 2, 3, 4] 2 4 with h1 | ⟨bs, h1, h2⟩
  · rw [hval] at h1
    exact absurd h1 (by simp)
  · rw [hval] at h1
    have hb : ([3, 4] : List Nat) = bs := Option.some.inj h1
    rw [← hb] at h2
    exact absurd h2 (by decide)

/-- C7, amended: a read served by a LOAD segment returns exactly `length`
bytes; the flat-offset fallback may return fewer — it truncates at the
snapshot end — and `None` is returned only when the address is served by
no in-bounds segment and is at or beyond the snapshot length. -/
theorem c7_read_memory_amended (segs : List CoreSegment) (core : List Nat) (a n : Nat) :
    (∀ bs, read_memory segs core a n = some bs →
      (bs.length = n ∨ (a < core.length ∧ bs.length = core.length - a ∧ bs.length < n))) ∧
    (read_memory segs core a n = none → core.length ≤ a) := by
  induction segs with
  | nil =>
    constructor
    · intro bs h
      unfold read_memory at h
      by_cases hl : a < core.length
      · rw [if_pos hl] at h
        have hbs := Option.some.inj h
        rw [← hbs, List.length_take, List.length_drop]
        omega
      · rw [if_neg hl] at h
        exact absurd h (by simp)
    · intro h
      unfold read_memory at h
      by_cases hl : a < core.length
      · rw [if_pos hl] at h
        exact absurd h (by simp)
      · omega
  | cons seg rest ih =>
    constructor
    · intro bs h
      unfold read_memory at h
      by_cases hin : seg.vaddr ≤ a ∧ a < seg.vaddr + seg.filesz
      · rw [if_pos hin] at h
        by_cases hb : seg.offset + (a - seg.vaddr) + n ≤ core.length
        · rw [if_pos hb] at h
          have hbs := Option.some.inj h
          left
          rw [← hbs, List.length_take, List.length_drop]
          omega
        · rw [if_neg hb] at h
          exact ih.1 bs h
      · rw [if_neg hin] at h
        exact ih.1 bs h
    · intro h
      unfold read_memory at h
      by_cases hin : seg.vaddr ≤ a ∧ a < seg.vaddr + seg.filesz
      · rw [if_pos hin] at h
        by_cases hb : seg.offset + (a - seg.vaddr) + n ≤ core.length
        · rw [if_pos hb] at h
          exact absurd h (by simp)
        · rw [if_neg hb] at h
          exact ih.2 h
      · rw [if_neg hin] at h
        exact ih.2 h

theorem c7_read_memory_amended_witness :
    (read_memory [] [1, 2, 3, 4] 2 4 = some [3, 4]) ∧
    (([3, 4] : List Nat).length = 4 ∨
      (2 < ([1, 2, 3, 4] : List Nat).length ∧
        ([3, 4] : List Nat).length = ([1, 2, 3, 4] : List Nat).length - 2 ∧
        ([3, 4] : List Nat).length < 4)) :=
  ⟨by decide, (c7_read_memory_amended [] [1, 2, 3, 4] 2 4).1 [3, 4] (by decide)⟩

/-- C1: when a plain command line decodes (with no skip pending) to a
`DATA` instruction whose announced count exceeds the sanity ceiling
`MAX_REASONABLE_DATA_COUNT`, the loop leaves the pending-skip counter at
zero and the pending-payload accumulator empty, advances the offset by 8,
and appends the `DATA` instruction itself to the command list; the next
command line is then decoded as a normal instruction at the announcement
offset plus 8 and appended to the command list — not consumed as
payload. -/
theorem c1_oversized_data_not_consumed
    (ls : LoopState) (lineA lineB : String)
    (psA : ParserState) (cmdA : ParsedCommand)
    (psB : ParserState) (cmdB : ParsedCommand)
    (hskip : ls.skipLines = 0)
    (hA : plainCommandLine lineA)
    (hparseA : parse_line ls.ps lineA ls.offset = some (psA, cmdA))
    (hdata : cmdA.cmdType = "DATA")
    (hbig : MAX_REASONABLE_DATA_COUNT < cmdA.cmdWord &&& 0x0FFFFFFF)
    (hB : plainCommandLine lineB)
    (hparseB : parse_line (processLine ls lineA).ps lineB (ls.offset + 8) = some (psB, cmdB)) :
    (processLine ls lineA).skipLines = 0 ∧
    (processLine ls lineA).pendingPathData = [] ∧
    (processLine ls lineA).offset = ls.offset + 8 ∧
    (processLine ls lineA).ps.commands.length = ls.ps.commands.length + 1 ∧
    (processLine ls lineA).ps.commands.getLast? = some cmdA ∧
    (processLine (processLine ls lineA) lineB).ps.commands
        = (processLine ls lineA).ps.commands ++ [cmdB] ∧
    (processLine (processLine ls lineA) lineB).offset = ls.offset + 16 := by
  have hstep := processLine_command ls lineA psA cmdA hskip hA hparseA
  have hsome : (flushPending (ensureSection psA) ls.pendingPathData).currentSection.isSome
      = true := by
    rw [flushPending_isSome]
    exact ensureSection_isSome psA
  have hcomm : (processLine ls lineA).ps.commands =
      (flushPending (ensureSection psA) ls.pendingPathData).commands ++ [cmdA] := by
    rw [hstep]
    exact appendCmd_commands _ _ hsome
  have hlen : (flushPending (ensureSection psA) ls.pendingPathData).commands.length
      = ls.ps.commands.length := by
    rw [flushPending_commands_length, ensureSection_commands,
      (parse_line_state _ _ _ _ _ hparseA).1]
  have hskip1 : (processLine ls lineA).skipLines = 0 := by
    rw [hstep]
    dsimp only
    rw [if_pos hdata, if_pos hbig]
  have hpend1 : (processLine ls lineA).pendingPathData = [] := by rw [hstep]
  have hoff1 : (processLine ls lineA).offset = ls.offset + 8 := by rw [hstep]
  have hparseB2 : parse_line (processLine ls lineA).ps lineB (processLine ls lineA).offset
      = some (psB, cmdB) := by
    rw [hoff1]
    exact hparseB
  have hstep2 := processLine_command (processLine ls lineA) lineB psB cmdB hskip1 hB hparseB2
  have hsome2 : (flushPending (ensureSection psB)
      (processLine ls lineA).pendingPathData).currentSection.isSome = true := by
    rw [flushPending_isSome]
    exact ensureSection_isSome psB
  have hcomm2 : (processLine (processLine ls lineA) lineB).ps.commands =
      (flushPending (ensureSection psB) (processLine ls lineA).pendingPathData).commands
        ++ [cmdB] := by
    rw [hstep2]
    exact appendCmd_commands _ _ hsome2
  refine ⟨hskip1, hpend1, hoff1, ?_, ?_, ?_, ?_⟩
  · rw [hcomm, List.length_append, hlen]
    rfl
  · rw [hcomm]
    exact getLast_append_singleton _ _
  · rw [hcomm2, hpend1, flushPending_nil, ensureSection_commands,
      (parse_line_state _ _ _ _ _ hparseB2).1]
  · rw [hstep2]
    dsimp only
    rw [hoff1]

def c1wLS : LoopState :=
  { ps := initParser false false false, offset := 0, skipLines := 0, pendingPathData := [] }

def c1wA : String := "0x40002000 0x00000000"

def c1wB : String := "0x20000007 0x00000000"

def c1wPsA : ParserState := (decode_command (initParser false false false) 0 0x40002000 0).1

def c1wCmdA : ParsedCommand := (decode_command (initParser false false false) 0 0x40002000 0).2

def c1wPsB : ParserState := (decode_command (processLine c1wLS c1wA).ps (0 + 8) 0x20000007 0).1

def c1wCmdB : ParsedCommand := (decode_command (processLine c1wLS c1wA).ps (0 + 8) 0x20000007 0).2

theorem c1_oversized_data_not_consumed_witness :
    (processLine c1wLS c1wA).skipLines = 0 ∧
    (processLine c1wLS c1wA).pendingPathData = [] ∧
    (processLine c1wLS c1wA).offset = c1wLS.offset + 8 ∧
    (processLine c1wLS c1wA).ps.commands.length = c1wLS.ps.commands.length + 1 ∧
    (processLine c1wLS c1wA).ps.commands.getLast? = some c1wCmdA ∧
    (processLine (processLine c1wLS c1wA) c1wB).ps.commands
        = (processLine c1wLS c1wA).ps.commands ++ [c1wCmdB] ∧
    (processLine (processLine c1wLS c1wA) c1wB).offset = c1wLS.offset + 16 :=
  c1_oversized_data_not_consumed c1wLS c1wA c1wB c1wPsA c1wCmdA c1wPsB c1wCmdB
    (by decide) (by decide) (by decide) (by decide) (by decide) (by decide) (by decide)

/-- C2: the Path Interpreter (a) skips an unrecognized opcode field by
exactly one field width and continues decoding from there; (b) stops at
an explicit end-of-path opcode, returning the `END` segment as the last
one; and (c) when the remaining bytes run out inside a segment's
coordinate list, it truncates that segment's operand list (never more
than the required count) and returns the segments decoded so far — the
interpreter is a total function, so no input can raise an error.  Fuel
arguments are those of the loop embedding; any sufficient fuel gives the
same run (`parseBytesGoF_fuel`). -/
theorem c2_path_interpreter_robustness :
    (∀ (fmt : String) (data : List Nat) (offset op f g : Nat),
        offset < data.length →
        read_opcode fmt data offset = some op →
        VLC_OP_CODES (op % 256) = none →
        data.length - offset < f →
        data.length - (offset + formatSize fmt) < g →
        parseBytesGoF fmt data offset f = parseBytesGoF fmt data (offset + formatSize fmt) g) ∧
    (∀ (fmt : String) (data : List Nat) (offset f : Nat),
        offset < data.length →
        read_opcode fmt data offset = some 0 →
        0 < f →
        parseBytesGoF fmt data offset f = [⟨0, "END", []⟩]) ∧
    (∀ (fmt : String) (data : List Nat) (offset op f : Nat) (name : String) (cnt : Nat),
        offset < data.length →
        read_opcode fmt data offset = some op →
        VLC_OP_CODES (op % 256) = some (name, cnt) →
        op ≠ 0 →
        data.length ≤ (readCoordsLoop fmt data (offset + formatSize fmt) cnt).2 →
        0 < f →
        parseBytesGoF fmt data offset f =
          [⟨op, name, (readCoordsLoop fmt data (offset + formatSize fmt) cnt).1⟩] ∧
        (readCoordsLoop fmt data (offset + formatSize fmt) cnt).1.length ≤ cnt) := by
  refine ⟨?_, ?_, ?_⟩
  · intro fmt data offset op f g h1 hop hvl hf hg
    cases f with
    | zero => omega
    | succ a =>
      have hone : parseBytesGoF fmt data offset (a + 1)
          = parseBytesGoF fmt data (offset + formatSize fmt) a := by
        conv_lhs => rw [parseBytesGoF]
        rw [if_pos h1, hop]
        dsimp only
        rw [hvl]
      rw [hone]
      have hfs := formatSize_pos fmt
      exact parseBytesGoF_fuel fmt data a g (offset + formatSize fmt) (by omega) hg
  · intro fmt data offset f h1 hop hf
    cases f with
    | zero => omega
    | succ a =>
      unfold parseBytesGoF
      rw [if_pos h1, hop]
      dsimp only
      rw [show VLC_OP_CODES (0 % 256) = some ("END", 0) from rfl]
      rfl
  · intro fmt data offset op f name cnt h1 hop hvl hz htr hf
    cases f with
    | zero => omega
    | succ a =>
      constructor
      · unfold parseBytesGoF
        rw [if_pos h1, hop]
        dsimp only
        rw [hvl]
        dsimp only
        rw [if_neg hz]
        have htail : parseBytesGoF fmt data
            (readCoordsLoop fmt data (offset + formatSize fmt) cnt).2 a = [] := by
          cases a with
          | zero => rfl
          | succ b =>
            unfold parseBytesGoF
            rw [if_neg (by omega)]
        rw [htail]
      · exact readCoordsLoop_length_le fmt data cnt (offset + formatSize fmt)

theorem c2_path_interpreter_robustness_witness :
    (parseBytesGoF "S8" [0x1B, 0x00] 0 3
        = parseBytesGoF "S8" [0x1B, 0x00] (0 + formatSize "S8") 2) ∧
    (parseBytesGoF "S8" [0x00, 0x05] 0 1 = [⟨0, "END", []⟩]) ∧
    (parseBytesGoF "S16" [2, 0, 5, 0] 0 2 =
        [⟨2, "MOVE", (readCoordsLoop "S16" [2, 0, 5, 0] (0 + formatSize "S16") 2).1⟩] ∧
      (readCoordsLoop "S16" [2, 0, 5, 0] (0 + formatSize "S16") 2).1.length ≤ 2) :=
  ⟨c2_path_interpreter_robustness.1 "S8" [0x1B, 0x00] 0 0x1B 3 2
     (by decide) (by decide) (by decide) (by decide) (by decide),
   c2_path_interpreter_robustness.2.1 "S8" [0x00, 0x05] 0 1
     (by decide) (by decide) (by decide),
   c2_path_interpreter_robustness.2.2 "S16" [2, 0, 5, 0] 0 2 2 "MOVE" 2
     (by decide) (by decide) (by decide) (by decide) (by decide) (by decide)⟩

/-- The C3 failing input: a path-format write (`S8`) and a source-address
write, then a section-marker line, fed through three loop iterations with
image tracking enabled. -/
def c3Run : LoopState :=
  processLine (processLine (processLine
    { ps := initParser false false true, offset := 0, skipLines := 0, pendingPathData := [] }
    "0x30010A34 0x00000000") "0x30010A29 0x20000000") "init command buffer"

/-- C3: on the failing input above, a section-marker line does start a
new (empty) segment and reset the offset cursor without decoding an
instruction, but the Register Context is NOT reset: the path numeric
format written in the previous segment (`S8` instead of the `FP32`
default) and the in-progress image source address both survive into the
new segment.  The source's `_reset_image_state`, whose docstring says it
is called when a new command segment starts, is never invoked, and
`current_path_format` is never reset at all. -/
theorem c3_section_marker_keeps_register_context :
    c3Run.offset = 0 ∧
    c3Run.ps.commands.length = 2 ∧
    (c3Run.ps.currentSection.map CommandSection.name) = some "初始化命令缓冲区" ∧
    (c3Run.ps.currentSection.map CommandSection.commands) = some [] ∧
    c3Run.ps.currentPathFormat = "S8" ∧
    c3Run.ps.currentImage.srcAddress = 0x20000000 := by
  decide

/-- The C5 failing input: a `DATA` announcement whose payload is flushed
before any path-format write, followed by a format write to `S8`. -/
def c5Log : String :=
  "0x40000001 0x00000000\n0x00000002 0x00000000\n0x00000000 0x00000000\n0x30010A34 0x00000000"

/-- C5: decoding the same log text twice on the same decoder does NOT
yield identical instruction sequences: `parse_log` resets the command
and section lists but not `current_path_format`, so the second run
interprets the first `DATA` payload with the `S8` format left over from
the first run (two path segments) instead of the `FP32` default (one
segment). -/
theorem c5_parse_log_not_idempotent :
    ((parse_log (initParser false true false) c5Log).2 ≠
      (parse_log (parse_log (initParser false true false) c5Log).1 c5Log).2) ∧
    ((parse_log (initParser false true false) c5Log).2.map fun c => c.pathSegments.length)
      = [1, 0, 0] ∧
    ((parse_log (parse_log (initParser false true false) c5Log).1 c5Log).2.map
        fun c => c.pathSegments.length) = [2, 0, 0] ∧
    (parse_log (initParser false true false) c5Log).1.currentPathFormat = "S8" := by
  decide

/-- C6: in the coredump-backed flow, a `CALL` instruction whose fetched
payload fails frame validation — its first word is not a `DATA`-class
header, or its trailing word is not a `RETURN`-class word — gets exactly
one descriptive note appended to its details, and no path interpretation
is attempted (its path-segment list stays empty); the resolution step is
a total function, so no unhandled error can be raised. -/
theorem c6_call_frame_validation_failure
    (readFn : Nat → Nat → Option (List Nat)) (fmt : String)
    (cmd : ParsedCommand) (pd : List Nat)
    (hseg : cmd.pathSegments = [])
    (haddr : cmd.dataWord ≠ 0)
    (hcount : cmd.cmdWord &&& 0x0FFFFFFF ≠ 0)
    (hread : readFn cmd.dataWord ((cmd.cmdWord &&& 0x0FFFFFFF) * 8) = some pd)
    (hbad : u32LE pd 0 &&& 0xF0000000 ≠ 0x40000000 ∨
            u32LE pd (pd.length - 8) &&& 0xF0000000 ≠ 0x70000000) :
    (resolveCallStep readFn fmt cmd).pathSegments = [] ∧
    ∃ note, (resolveCallStep readFn fmt cmd).details = cmd.details ++ [note] := by
  unfold resolveCallStep
  rw [if_neg (by
    intro hor
    rcases hor with h | h
    · exact haddr h
    · exact hcount (by omega))]
  rw [hread]
  dsimp only
  by_cases hlen : pd.length < 16
  · rw [if_pos hlen]
    exact ⟨hseg, _, rfl⟩
  · rw [if_neg hlen]
    by_cases hh : u32LE pd 0 &&& 0xF0000000 = 0x40000000
    · have htl : u32LE pd (pd.length - 8) &&& 0xF0000000 ≠ 0x70000000 := by
        rcases hbad with h | h
        · exact absurd hh h
        · exact h
      have htl2 : u32LE pd (pd.length - 8) ≠ 0x70000000 := by
        intro heq
        rw [heq] at htl
        exact htl (by decide)
      rw [if_neg (by
        intro hc
        exact hc hh)]
      rw [if_pos htl2]
      exact ⟨hseg, _, rfl⟩
    · rw [if_pos hh]
      exact ⟨hseg, _, rfl⟩

def c6wCmd : ParsedCommand :=
  { offset := 0, cmdWord := 0x60000002, dataWord := 0x30001000, cmdType := "CALL",
    description := "调用上传路径 (Uploaded Path)", details := [] }

def c6wRead : Nat → Nat → Option (List Nat) := fun _ _ =>
  some [0, 0, 0, 0, 0, 0, 0, 0, 0, 0, 0, 0, 0, 0, 0, 0]

theorem c6_call_frame_validation_failure_witness :
    (u32LE [0, 0, 0, 0, 0, 0, 0, 0, 0, 0, 0, 0, 0, 0, 0, 0] 0 &&& 0xF0000000 ≠ 0x40000000) ∧
    (resolveCallStep c6wRead "FP32" c6wCmd).pathSegments = [] ∧
    ∃ note, (resolveCallStep c6wRead "FP32" c6wCmd).details = c6wCmd.details ++ [note] :=
  ⟨by decide,
   c6_call_frame_validation_failure c6wRead "FP32" c6wCmd
     [0, 0, 0, 0, 0, 0, 0, 0, 0, 0, 0, 0, 0, 0, 0, 0]
     (by decide) (by decide) (by decide) (by decide) (Or.inl (by decide))⟩

end VgLite
